import Mathlib

/-!
Verification of the Restate VS Code extension's process-lifecycle and
auto-registration core, shallowly embedded from the TypeScript sources
(`src/extension.ts` latest revision, `src/RestateServerRunner.ts`).

Conventions:
* JavaScript strings become `String`; `data.includes(m)` becomes the
  executable substring test `strIncludes`.
* Environment objects (`Record<string, string>` / `process.env`) become
  partial maps `String → Option String`; object-spread merges become
  lookup functions whose precedence mirrors "later spread wins".
* The registration retry loop (`_registerRestateServiceDeployment`)
  becomes a fuel-based recursion (fuel = maxRetries − attempt) producing
  the list of externally observable events (POSTs, logs, sleeps, user
  reports).
* The single-threaded cooperative interleaving of the two activity
  handlers becomes a finite transition system with an explicit schedule.
-/

namespace Restate

/-! ## Substring containment (JavaScript `String.includes`) -/

/-- Case-sensitive substring test on character lists: `go hs ns` is true
iff `ns` occurs contiguously inside `hs` (true for empty `ns`), mirroring
JavaScript `haystack.includes(needle)`. -/
def listIncludes : List Char → List Char → Bool
  | hs, ns =>
    ns.isPrefixOf hs ||
      match hs with
      | [] => false
      | _ :: t => listIncludes t ns

/-- JavaScript `data.includes(marker)`: case-sensitive substring containment. -/
def strIncludes (data marker : String) : Bool :=
  listIncludes data.toList marker.toList

theorem listIncludes_nil (ns : List Char) :
    listIncludes [] ns = ns.isEmpty := by
  rw [listIncludes]
  cases ns <;> simp [List.isPrefixOf]

theorem listIncludes_cons (h : Char) (t ns : List Char) :
    listIncludes (h :: t) ns = (ns.isPrefixOf (h :: t) || listIncludes t ns) := by
  rw [listIncludes]

/-- `listIncludes` decides the `List.IsInfix` relation. -/
theorem listIncludes_iff_infix (hs ns : List Char) :
    listIncludes hs ns = true ↔ ns <:+: hs := by
  induction hs with
  | nil =>
    rw [listIncludes_nil]
    cases ns <;> simp
  | cons h t ih =>
    rw [listIncludes_cons]
    simp only [Bool.or_eq_true, List.isPrefixOf_iff_prefix, ih]
    exact (List.infix_cons_iff).symm

/-! ## Activity marker set (`src/extension.ts` lines 124–129) -/

/-- Used by TS SDK. -/
def SDK_STARTED_MESSAGE_1 : String := "Restate SDK started listening on 9080"
/-- Used by Golang SDK. -/
def SDK_STARTED_MESSAGE_2 : String := "Restate SDK started listening on [::]:9080"
/-- Used by Golang SDK (loopback form). -/
def SDK_STARTED_MESSAGE_3 : String := "Restate SDK started listening on 127.0.0.1:9080"
/-- Old TS SDK message. -/
def SDK_STARTED_MESSAGE_4 : String := "INFO: Listening on 9080..."

/-- The fixed marker set, in source order. -/
def sdkStartedMessages : List String :=
  [SDK_STARTED_MESSAGE_1, SDK_STARTED_MESSAGE_2, SDK_STARTED_MESSAGE_3, SDK_STARTED_MESSAGE_4]

/-- The detector condition from `setupTerminalMonitoring` /
`setupDebugConsoleMonitoring`:
`data.includes(M1) || data.includes(M2) || data.includes(M3) || data.includes(M4)`. -/
def detectSdkStarted (data : String) : Bool :=
  strIncludes data SDK_STARTED_MESSAGE_1 || strIncludes data SDK_STARTED_MESSAGE_2 ||
    strIncludes data SDK_STARTED_MESSAGE_3 || strIncludes data SDK_STARTED_MESSAGE_4

/-- Marker check over an arbitrary list of markers, OR-combined. -/
def detectWith (markers : List String) (data : String) : Bool :=
  markers.any (fun m => strIncludes data m)

theorem detectSdkStarted_eq_detectWith (data : String) :
    detectSdkStarted data = detectWith sdkStartedMessages data := by
  simp [detectSdkStarted, detectWith, sdkStartedMessages, List.any, Bool.or_assoc]

/-! ## Environment merge (`RestateServerRunner.ts` line 66)

The source spawns the server with
`env: { "RESTATE_LOG_DISABLE_ANSI_CODES": "true", ...process.env, ...customEnvVars }`.
In a JavaScript object literal a later spread overwrites earlier keys, so
lookup precedence is: caller overlay, then ambient `process.env`, then the
fixed literal default. -/

/-- A partial environment: name → value. -/
def Env : Type := String → Option String

/-- The fixed default written literally first in the spawn env object. -/
def fixedDefaultEnv : Env := fun k =>
  if k = "RESTATE_LOG_DISABLE_ANSI_CODES" then some "true" else none

/-- JavaScript object-literal merge `{ ...first, ...second, ...third }`:
the latest spread that defines a key wins. -/
def spreadMerge (first second third : Env) : Env := fun k =>
  match third k with
  | some v => some v
  | none =>
    match second k with
    | some v => some v
    | none => first k

/-- The environment the spawned `restate-server` process sees
(`RestateServerRunner.ts` line 66): fixed literal default first, then
`process.env`, then `customEnvVars`. -/
def spawnEnv (ambient overlay : Env) : Env :=
  spreadMerge fixedDefaultEnv ambient overlay

/-- Modelled from the spec's words for comparison (claim C2): "the
overlay's value if the overlay defines it, otherwise the fixed default if
defined, otherwise the ambient value". -/
def specMergedEnv (ambient defaults overlay : Env) : Env := fun k =>
  match overlay k with
  | some v => some v
  | none =>
    match defaults k with
    | some v => some v
    | none => ambient k

/-- Concrete ambient environment that defines the ANSI variable. -/
def ambientWithAnsi : Env := fun k =>
  if k = "RESTATE_LOG_DISABLE_ANSI_CODES" then some "false" else none

/-- The empty overlay. -/
def emptyEnv : Env := fun _ => none

/-! ## Registration retry loop
(`src/extension.ts` latest revision, `_registerRestateServiceDeployment`,
lines 226–267.)

One attempt performs `fetch(url, ...)` which either rejects (transport
error) or yields a response with an `ok` flag (2xx) and a `statusText`;
on `ok` the body is parsed with `response.json()`, which itself may
reject. Any of the three failures is caught by the surrounding
`try`/`catch`. -/

/-- Outcome of one `fetch` POST, as the code can observe it. -/
inductive AttemptResult
  | fetchError (msg : String)
  | httpResponse (ok : Bool) (statusText : String) (jsonOk : Bool) (jsonErrMsg : String)
deriving DecidableEq

/-- The error message the `try` block throws for a given attempt result,
or `none` when the attempt fully succeeds (2xx and body parses):
`if (!response.ok) throw new Error("Failed to register deployment: " + statusText)`,
then `await response.json()` may reject. -/
def attemptFailure : AttemptResult → Option String
  | .fetchError msg => some msg
  | .httpResponse ok statusText jsonOk jsonErrMsg =>
    if ok then (if jsonOk then none else some jsonErrMsg)
    else some ("Failed to register deployment: " ++ statusText)

/-- Whether the HTTP response of an attempt was 2xx (`response.ok`). -/
def respOk : AttemptResult → Bool
  | .fetchError _ => false
  | .httpResponse ok _ _ _ => ok

/-- The fixed JSON payload of the registration POST
(`extension.ts` lines 228–234). -/
structure DeploymentPayload where
  uri : String
  use_http_11 : Bool
  force : Bool
  dry_run : Bool
deriving DecidableEq

/-- `http://localhost:<port>`, the `uri` field of the payload. -/
def payloadUri (servicePort : Nat) : String :=
  "http://localhost:" ++ toString servicePort

/-- The payload built for `servicePort` (`additional_headers` is the fixed
empty object and carries no information, so it is omitted as a field). -/
def deploymentPayload (servicePort : Nat) : DeploymentPayload :=
  { uri := payloadUri servicePort, use_http_11 := false, force := true, dry_run := false }

/-- The fixed administrative endpoint the POST targets
(`extension.ts` line 227). -/
def deploymentsUrl : String := "http://localhost:9070/deployments"

/-- Externally observable events of one `_registerRestateServiceDeployment`
run. -/
inductive RegEvent
  | post (attempt : Nat) (body : DeploymentPayload)
  | logFailed (msg : String)
  | sleep (ms : Nat)
  | infoReport (msg : String)
  | errorReport (msg : String)
deriving DecidableEq

/-- `maxRetries` (`extension.ts` line 236). -/
def maxRetries : Nat := 10

/-- Success message: ``Restate service deployment at <port> registered successfully``. -/
def successMsg (servicePort : Nat) : String :=
  "Restate service deployment at " ++ toString servicePort ++ " registered successfully"

/-- Exhaustion message shown by `showErrorMessage` (`extension.ts` line 263). -/
def exhaustMsg (servicePort : Nat) (lastErr : String) : String :=
  "Error registering Restate service deployment at " ++ toString servicePort ++
    " after " ++ toString maxRetries ++ " attempts: " ++ lastErr

/-- Per-attempt failure log: ``Attempt <n> failed: <err>`` (`console.log`,
`extension.ts` line 260). -/
def attemptFailedMsg (attempt : Nat) (err : String) : String :=
  "Attempt " ++ toString attempt ++ " failed: " ++ err

/-- The `while (attempt < maxRetries)` loop of
`_registerRestateServiceDeployment`, with `ep i` the behaviour of the
endpoint on the 0-based `i`-th POST. The fuel argument equals
`maxRetries - attempt` at every call, so the recursion terminates exactly
when the `while` condition turns false. Event order inside one failing
iteration follows the `catch` block: `attempt++`, `console.log`,
`await setTimeout(400)`, then the exhaustion report when
`attempt >= maxRetries`. -/
def registerLoop (ep : Nat → AttemptResult) (servicePort : Nat) :
    Nat → Nat → List RegEvent
  | _, 0 => []
  | attempt, fuel + 1 =>
    RegEvent.post attempt (deploymentPayload servicePort) ::
      match attemptFailure (ep attempt) with
      | none => [RegEvent.infoReport (successMsg servicePort)]
      | some errMsg =>
        RegEvent.logFailed (attemptFailedMsg (attempt + 1) errMsg) ::
          RegEvent.sleep 400 ::
            ((if attempt + 1 ≥ maxRetries
                then [RegEvent.errorReport (exhaustMsg servicePort errMsg)]
                else []) ++
              registerLoop ep servicePort (attempt + 1) fuel)

/-- Default port of `_registerRestateServiceDeployment(servicePort = 9070)`. -/
def defaultServicePort : Nat := 9070

/-- One `_registerRestateServiceDeployment(servicePort)` call:
`attempt = 0`, loop while `attempt < maxRetries`. -/
def registerDeployment (ep : Nat → AttemptResult) (servicePort : Nat) : List RegEvent :=
  registerLoop ep servicePort 0 maxRetries

/-- `registerRestateServiceDeployment` invokes the worker with no explicit
port, so the default `9070` applies (`extension.ts` lines 221, 226). The
`isRegisteringDeployment` guard is modelled in the interleaving section;
for a single sequential call it is acquired and released trivially. -/
def registerRestateServiceDeployment (ep : Nat → AttemptResult) : List RegEvent :=
  registerDeployment ep defaultServicePort

/-- Count of POST events in a trace. -/
def countPosts (t : List RegEvent) : Nat :=
  t.countP (fun e => match e with | .post _ _ => true | _ => false)

/-- Count of user-visible success reports in a trace. -/
def countInfoReports (t : List RegEvent) : Nat :=
  t.countP (fun e => match e with | .infoReport _ => true | _ => false)

/-- The user-visible failure reports of a trace, in order. -/
def errorReports (t : List RegEvent) : List RegEvent :=
  t.filter (fun e => match e with | .errorReport _ => true | _ => false)

/-- `sepAux seen t` scans `t`; `seen` records that a POST has occurred with
no `sleep` since. Returns `false` iff two POSTs occur with no intervening
sleep of at least 400 ms. -/
def sepAux : Bool → List RegEvent → Bool
  | _, [] => true
  | seen, e :: rest =>
    match e with
    | .post _ _ => if seen then false else sepAux true rest
    | .sleep ms => if ms ≥ 400 then sepAux false rest else sepAux seen rest
    | _ => sepAux seen rest

/-- Consecutive POSTs in the trace are separated by a ≥400 ms sleep. -/
def postsSeparated (t : List RegEvent) : Bool := sepAux false t

/-! ## ServerRunner state (`src/RestateServerRunner.ts`)

The runner holds the `starting` guard flag and the optional owned child
process handle (`serverProcess`). The handle being an `Option` embeds the
data-model fact that at most one handle is owned at any instant. -/

/-- Mutable fields of `RestateServerRunner`. -/
structure RunnerState where
  starting : Bool
  serverProcess : Option Nat
deriving DecidableEq

/-- `new RestateServerRunner(...)`: `starting = false`, no process. -/
def RunnerState.init : RunnerState := ⟨false, none⟩

/-- `isRunning()` (`RestateServerRunner.ts` line 167): true iff a process
handle is owned. -/
def RunnerState.isRunning (st : RunnerState) : Bool := st.serverProcess.isSome

/-- Observable events of one `startServer` call. -/
inductive StartEvent
  | warnAlreadyStarting
  | warnAlreadyRunning
  | installRun
  | installFailed (code : Int)
  | cancelledBeforeSpawn
  | spawnServer (pid : Nat)
deriving DecidableEq

/-- Result of one `startServer` call: the runner state when the returned
promise settles, the events, and whether it settled fulfilled (`ok = true`)
or rejected. -/
structure StartResult where
  state : RunnerState
  events : List StartEvent
  ok : Bool
deriving DecidableEq

/-- `startServer` / `_startServer` (`RestateServerRunner.ts` lines 17–89)
as a function of the environment's responses: whether the binary is
already installed, the installer's exit code when it runs, whether the
progress dialog's cancellation token fired by the post-install check, and
the pid the spawn produces.

Path by path:
* `starting` already true → warning, return (fulfilled), state unchanged.
* `serverProcess` already owned → warning, return (fulfilled), state unchanged.
* otherwise `starting := true`; then install if the binary is absent — a
  non-zero installer exit rejects the promise, and the `finally` clears
  `starting`, leaving the state as it was;
* if the cancellation token fired, return before spawning (fulfilled,
  `finally` clears `starting`);
* otherwise spawn: the handle is assigned and `starting` cleared
  (line 86 and the `finally`). -/
def startServer (st : RunnerState) (installed : Bool) (installExit : Int)
    (cancelRequested : Bool) (pid : Nat) : StartResult :=
  if st.starting then ⟨st, [.warnAlreadyStarting], true⟩
  else if st.serverProcess.isSome then ⟨st, [.warnAlreadyRunning], true⟩
  else
    let installEvents := if installed then [] else [StartEvent.installRun]
    if ¬installed ∧ installExit ≠ 0 then
      ⟨{ st with starting := false }, installEvents ++ [.installFailed installExit], false⟩
    else if cancelRequested then
      ⟨{ st with starting := false }, installEvents ++ [.cancelledBeforeSpawn], true⟩
    else
      ⟨{ starting := false, serverProcess := some pid },
        installEvents ++ [.spawnServer pid], true⟩

/-- Signals `stopServer` may send to the owned process. -/
inductive StopSignal
  | sigterm
  | sigkill
deriving DecidableEq

/-- How `stopServer`'s returned promise settles. `pending` covers the
process never reporting close nor error after the forceful kill: no
handler ever settles the promise. -/
inductive StopOutcome
  | resolved
  | rejected (msg : String)
  | pending
deriving DecidableEq

/-- The first lifecycle event the child process reports after the graceful
signal, with its delay in milliseconds. -/
inductive ProcFirstEvent
  | closeAt (t : Nat)
  | errorAt (t : Nat) (msg : String)
  | never
deriving DecidableEq

/-- Whether a close or error event arrives strictly within the 10-second
escalation window (`setTimeout(..., 10_000)`); an event at exactly 10 000 ms
is resolved in favour of the already-queued timer callback. -/
def eventWithinTimeout : ProcFirstEvent → Bool
  | .closeAt t => t < 10000
  | .errorAt t _ => t < 10000
  | .never => false

/-- Rejection message when `kill('SIGKILL')` itself throws
(`RestateServerRunner.ts` line 111). -/
def killThrowMsg (err : String) : String :=
  "Error when killing the Restate server: " ++ err

/-- Rejection message when the process reports an error
(`RestateServerRunner.ts` line 126). -/
def closeErrMsg (err : String) : String :=
  "Error when closing the Restate server: " ++ err

/-- `stopServer` (`RestateServerRunner.ts` lines 91–132) on a runner state,
given the process's behaviour `fe` and whether the forceful `kill` call
throws (with `killErr` its message). Returns the outcome, the signals sent
in order, and the runner state after the synchronous prefix (the handle is
cleared immediately, before any signal).

* `starting` → warn and return fulfilled, no signal, state unchanged.
* no handle → resolve immediately, no signal.
* otherwise `serverProcess := undefined`, send SIGTERM, arm the 10 s timer:
  - close strictly before 10 s: timer cancelled, resolve; no SIGKILL;
  - error strictly before 10 s: timer cancelled, reject; no SIGKILL;
  - otherwise the timer fires: `kill('SIGKILL')` is called; if that call
    throws the promise rejects with `killThrowMsg`; otherwise the promise
    still waits, settling on the eventual close (resolve) or error
    (reject), and stays pending forever if neither arrives. -/
def stopServer (st : RunnerState) (fe : ProcFirstEvent) (killThrows : Bool)
    (killErr : String) : StopOutcome × List StopSignal × RunnerState :=
  if st.starting then (.resolved, [], st)
  else
    match st.serverProcess with
    | none => (.resolved, [], st)
    | some _ =>
      let st' : RunnerState := { st with serverProcess := none }
      if eventWithinTimeout fe then
        match fe with
        | .closeAt _ => (.resolved, [.sigterm], st')
        | .errorAt _ msg => (.rejected (closeErrMsg msg), [.sigterm], st')
        | .never => (.pending, [.sigterm], st')
      else
        if killThrows then
          (.rejected (killThrowMsg killErr), [.sigterm, .sigkill], st')
        else
          match fe with
          | .closeAt _ => (.resolved, [.sigterm, .sigkill], st')
          | .errorAt _ msg => (.rejected (closeErrMsg msg), [.sigterm, .sigkill], st')
          | .never => (.pending, [.sigterm, .sigkill], st')

/-! ## Stream monitoring (`extension.ts` lines 131–187)

Terminal side: `for await (const data of stream) { if (match) { ...; break } }`
— the `break` ends consumption of that shell execution's stream.
Debug side: the adapter tracker's `onDidSendMessage` fires on every
message; a matching output event always triggers, nothing disables the
tracker. -/

/-- Number of times the terminal handler acts for one shell execution whose
stream yields `chunks` in order: scan until the first matching chunk, act
once, `break`. -/
def terminalTriggers : List String → Nat
  | [] => 0
  | d :: rest => if detectSdkStarted d then 1 else terminalTriggers rest

/-- One message delivered to the debug adapter tracker. -/
structure DebugMessage where
  type : String
  event : String
  category : String
  output : String

/-- The condition of `onDidSendMessage` under which the debug handler acts
(`extension.ts` lines 164–168). -/
def debugMessageTriggers (m : DebugMessage) : Bool :=
  m.type = "event" && m.event = "output" &&
    (m.category = "console" || m.category = "stderr" || m.category = "stdout") &&
    detectSdkStarted m.output

/-- Number of times the debug handler acts across a session's message
stream: every matching message triggers, the tracker is never removed. -/
def debugTriggers (ms : List DebugMessage) : Nat :=
  (ms.filter debugMessageTriggers).length

/-! ## Interleaving of two near-simultaneous activity matches
(`extension.ts` lines 141–147, 168–178, 189–224)

Each of the two sources (terminal handler, debug handler) runs, after its
match, the sequence `autoStartRestateServer(); registerRestateServiceDeployment()`.
JavaScript is single-threaded: code between `await` suspension points is
atomic. We model each handler as a task advancing through atomic phases,
and quantify over all interleavings (schedules). A task is identified by a
`Bool` (`false` = terminal handler, `true` = debug handler).

Atomic phases of one task:
* `start` — `autoStartRestateServer`'s check
  `if (!restateServerRunner?.isRunning())`: if running, fall through to
  registration; otherwise assign a fresh runner to the module-level
  variable and enter `startServer`/`_startServer` up to the first
  suspension (the freshly constructed runner has `starting = false` and
  no process, so `startServer`'s guards pass; the install/progress await
  suspends before `spawn` runs — e.g. while `npm install` executes).
* `installing` — resume: the install completes and `spawn` assigns the
  task's own runner object's `serverProcess` (the task holds its object
  reference even if the module-level variable was reassigned meanwhile).
* `registerCheck` — `registerRestateServiceDeployment`'s guard:
  `if (isRegisteringDeployment) return;` else set it and suspend into
  `_registerRestateServiceDeployment` (guard check and set are in one
  synchronous block).
* `registering` — resume: the retry loop finishes and the `finally`
  clears `isRegisteringDeployment`.
* `done`. -/

/-- Program counter of one handler task. -/
inductive TaskPhase
  | start
  | installing
  | registerCheck
  | registering
  | done
deriving DecidableEq, Fintype

/-- Global configuration: which task's runner the module-level
`restateServerRunner` variable currently references, whether each task's
created runner object has spawned its process, the
`isRegisteringDeployment` guard, and both program counters. -/
structure AutoConf where
  runnerOf : Option Bool
  procOfFalse : Bool
  procOfTrue : Bool
  isRegisteringDeployment : Bool
  phaseOfFalse : TaskPhase
  phaseOfTrue : TaskPhase
deriving DecidableEq, Fintype

/-- Whether task `i`'s runner object has an owned process. -/
def AutoConf.procOf (c : AutoConf) (i : Bool) : Bool :=
  if i then c.procOfTrue else c.procOfFalse

/-- Program counter of task `i`. -/
def AutoConf.phaseOf (c : AutoConf) (i : Bool) : TaskPhase :=
  if i then c.phaseOfTrue else c.phaseOfFalse

/-- `restateServerRunner?.isRunning()` read through the module-level
variable. -/
def AutoConf.globalIsRunning (c : AutoConf) : Bool :=
  match c.runnerOf with
  | none => false
  | some i => c.procOf i

/-- Update task `i`'s program counter. -/
def AutoConf.setPhase (c : AutoConf) (i : Bool) (p : TaskPhase) : AutoConf :=
  if i then { c with phaseOfTrue := p } else { c with phaseOfFalse := p }

/-- Update task `i`'s runner's process flag. -/
def AutoConf.setProc (c : AutoConf) (i : Bool) (b : Bool) : AutoConf :=
  if i then { c with procOfTrue := b } else { c with procOfFalse := b }

/-- Observable events of the interleaved run. -/
inductive AutoEvent
  | ensureStartedRun (i : Bool)
  | spawnFromAuto (i : Bool)
  | registerEnter (i : Bool)
  | registerSkip (i : Bool)
  | registerDone (i : Bool)
deriving DecidableEq

/-- One atomic step of task `i`. -/
def autoStep (i : Bool) (c : AutoConf) : AutoConf × List AutoEvent :=
  match c.phaseOf i with
  | .start =>
    if c.globalIsRunning then (c.setPhase i .registerCheck, [])
    else
      ((({ c with runnerOf := some i }).setProc i false).setPhase i .installing,
        [.ensureStartedRun i])
  | .installing =>
    ((c.setProc i true).setPhase i .registerCheck, [.spawnFromAuto i])
  | .registerCheck =>
    if c.isRegisteringDeployment then (c.setPhase i .done, [.registerSkip i])
    else
      ({ c with isRegisteringDeployment := true }.setPhase i .registering,
        [.registerEnter i])
  | .registering =>
    ({ c with isRegisteringDeployment := false }.setPhase i .done, [.registerDone i])
  | .done => (c, [])

/-- Run a schedule (sequence of task choices) from a configuration. -/
def runSched : List Bool → AutoConf → AutoConf
  | [], c => c
  | i :: rest, c => runSched rest (autoStep i c).1

/-- Event trace of a schedule. -/
def traceSched : List Bool → AutoConf → List AutoEvent
  | [], _ => []
  | i :: rest, c => (autoStep i c).2 ++ traceSched rest (autoStep i c).1

/-- Both handlers have just observed a near-simultaneous match: no runner
exists, the registration guard is clear, both tasks are about to run their
first atomic block. -/
def bothMatchedConf : AutoConf :=
  ⟨none, false, false, false, .start, .start⟩

/-- Both tasks simultaneously inside the `_registerRestateServiceDeployment`
body. -/
def bothInsideRegister (c : AutoConf) : Bool :=
  decide (c.phaseOfFalse = .registering) && decide (c.phaseOfTrue = .registering)

/-- Inductive invariant: the `isRegisteringDeployment` guard is set exactly
when one task is inside the register body, and never both. -/
def regGuardInv (c : AutoConf) : Bool :=
  (c.isRegisteringDeployment ==
      (decide (c.phaseOfFalse = .registering) || decide (c.phaseOfTrue = .registering))) &&
    !bothInsideRegister c

/-- Number of `ensureStartedRun` events in a trace. -/
def countEnsureStartedRuns (t : List AutoEvent) : Nat :=
  t.countP (fun e => match e with | .ensureStartedRun _ => true | _ => false)

/-- Number of `registerEnter` events in a trace. -/
def countRegisterEnters (t : List AutoEvent) : Nat :=
  t.countP (fun e => match e with | .registerEnter _ => true | _ => false)

/-- The interleaving realised when each handler suspends in its install
phase while the other runs: terminal handler's first block, debug
handler's first block, both installs complete, then both registration
checks. -/
def interleavedSched : List Bool :=
  [false, true, false, true, false, true, false]

/-! ## Concrete instances used by counterexamples and witnesses -/

/-- Endpoint whose first response is 2xx with a body that fails JSON
parsing, fully succeeding from the second attempt on. -/
def badJsonThenOkEndpoint : Nat → AttemptResult := fun i =>
  if i = 0 then .httpResponse true "OK" false "Unexpected end of JSON input"
  else .httpResponse true "OK" true ""

/-- Endpoint whose every POST fails at the transport level. -/
def alwaysFailEndpoint : Nat → AttemptResult := fun _ => .fetchError "fetch failed"

/-- A debug-adapter output event whose text contains an activity marker. -/
def matchingDebugMessage : DebugMessage :=
  ⟨"event", "output", "stdout", "xyz Restate SDK started listening on 9080 rest"⟩

/-- Count of spawn events produced by a `startServer` call. -/
def countSpawnEvents (t : List StartEvent) : Nat :=
  t.countP (fun e => match e with | .spawnServer _ => true | _ => false)

/-- Concrete ambient environment for the spec's overlay-precedence example. -/
def exAmbient : Env := fun k => if k = "A" then some "1" else none

/-- Concrete overlay for the spec's overlay-precedence example. -/
def exOverlay : Env := fun k =>
  if k = "B" then some "9" else if k = "C" then some "3" else none

/-- Endpoint failing twice, then fully succeeding. -/
def failTwiceEndpoint : Nat → AttemptResult := fun i =>
  if i < 2 then .httpResponse false "Service Unavailable" true "" else .httpResponse true "OK" true ""

/-- Modelled from the spec (claim C5): the retry loop as the spec
describes it — identical to `registerLoop` except that it "accepts a
cancellation signal checked at the top of each loop iteration", exiting
cleanly (no events, no error) when the signal has fired. The source's
`_registerRestateServiceDeployment` has no such parameter; this definition
exists only to compare the spec's described behaviour against the code's. -/
def registerLoopCancellable (ep : Nat → AttemptResult) (cancelled : Nat → Bool)
    (servicePort : Nat) : Nat → Nat → List RegEvent
  | _, 0 => []
  | attempt, fuel + 1 =>
    if cancelled attempt then []
    else
      RegEvent.post attempt (deploymentPayload servicePort) ::
        match attemptFailure (ep attempt) with
        | none => [RegEvent.infoReport (successMsg servicePort)]
        | some errMsg =>
          RegEvent.logFailed (attemptFailedMsg (attempt + 1) errMsg) ::
            RegEvent.sleep 400 ::
              ((if attempt + 1 ≥ maxRetries
                  then [RegEvent.errorReport (exhaustMsg servicePort errMsg)]
                  else []) ++
                registerLoopCancellable ep cancelled servicePort (attempt + 1) fuel)

/-! ## Helper lemmas on the registration loop -/

theorem maxRetries_eq : maxRetries = 10 := rfl

theorem registerLoop_allFail (ep : Nat → AttemptResult) (port : Nat) (errs : Nat → String)
    (h : ∀ i, i < maxRetries → attemptFailure (ep i) = some (errs i)) :
    ∀ fuel attempt, attempt + fuel = maxRetries →
      countPosts (registerLoop ep port attempt fuel) = fuel ∧
      errorReports (registerLoop ep port attempt fuel) =
        (if fuel = 0 then []
          else [RegEvent.errorReport (exhaustMsg port (errs (maxRetries - 1)))]) ∧
      countInfoReports (registerLoop ep port attempt fuel) = 0 := by
  intro fuel
  induction fuel with
  | zero =>
    intro attempt _
    simp [registerLoop, countPosts, errorReports, countInfoReports]
  | succ f ih =>
    intro attempt hat
    rw [maxRetries_eq] at hat
    have hlt : attempt < maxRetries := by rw [maxRetries_eq]; omega
    have hfail := h attempt hlt
    simp only [registerLoop, hfail]
    by_cases hf : f = 0
    · subst hf
      have hge : attempt + 1 ≥ maxRetries := by rw [maxRetries_eq]; omega
      have ha : attempt = maxRetries - 1 := by rw [maxRetries_eq]; omega
      simp [hge, ha, registerLoop, countPosts, errorReports, countInfoReports,
        List.countP_cons, List.filter_cons, maxRetries_eq]
    · have hge : ¬(attempt + 1 ≥ maxRetries) := by rw [maxRetries_eq]; omega
      obtain ⟨ihp, ihe, ihi⟩ := ih (attempt + 1) (by rw [maxRetries_eq]; omega)
      simp [hge, countPosts, errorReports, countInfoReports, List.countP_cons,
        List.filter_cons] at ihp ihe ihi ⊢
      simp [ihp, ihe, ihi, hf]
      exact ihi

theorem registerLoop_firstSuccess (ep : Nat → AttemptResult) (port : Nat) (errs : Nat → String)
    (j : Nat) (hj : j < maxRetries)
    (hfail : ∀ i, i < j → attemptFailure (ep i) = some (errs i))
    (hsucc : attemptFailure (ep j) = none) :
    ∀ fuel attempt, attempt + fuel = maxRetries → attempt ≤ j →
      countPosts (registerLoop ep port attempt fuel) = j + 1 - attempt ∧
      countInfoReports (registerLoop ep port attempt fuel) = 1 ∧
      errorReports (registerLoop ep port attempt fuel) = [] ∧
      (registerLoop ep port attempt fuel).getLast? =
        some (RegEvent.infoReport (successMsg port)) := by
  intro fuel
  induction fuel with
  | zero =>
    intro attempt hat hle
    exfalso
    rw [maxRetries_eq] at hat hj
    omega
  | succ f ih =>
    intro attempt hat hle
    by_cases haj : attempt = j
    · subst haj
      simp only [registerLoop, hsucc]
      refine ⟨?_, ?_, ?_, ?_⟩
      · simp [countPosts, List.countP_cons]
      · simp [countInfoReports, List.countP_cons]
      · simp [errorReports, List.filter_cons]
      · simp [List.getLast?_cons_cons]
    · have hlt : attempt < j := by omega
      have hfa := hfail attempt hlt
      have hge : ¬(attempt + 1 ≥ maxRetries) := by rw [maxRetries_eq] at hj ⊢; omega
      obtain ⟨ihp, ihi, ihe, ihl⟩ :=
        ih (attempt + 1) (by rw [maxRetries_eq] at hat ⊢; omega) (by omega)
      simp only [registerLoop, hfa, if_neg hge, List.nil_append]
      rcases hrec : registerLoop ep port (attempt + 1) f with _ | ⟨r, rs⟩
      · rw [hrec] at ihl; simp at ihl
      · rw [hrec] at ihp ihi ihe ihl
        refine ⟨?_, ?_, ?_, ?_⟩
        · simp [countPosts, List.countP_cons] at ihp ⊢
          omega
        · simp [countInfoReports, List.countP_cons] at ihi ⊢
          omega
        · simp [errorReports, List.filter_cons] at ihe ⊢
          exact ihe
        · simp [List.getLast?_cons_cons]
          exact ihl

theorem registerLoop_sep (ep : Nat → AttemptResult) (port : Nat) :
    ∀ fuel attempt, sepAux false (registerLoop ep port attempt fuel) = true := by
  intro fuel
  induction fuel with
  | zero => intro attempt; simp [registerLoop, sepAux]
  | succ f ih =>
    intro attempt
    simp only [registerLoop]
    cases hres : attemptFailure (ep attempt) with
    | none => simp [sepAux]
    | some m =>
      by_cases hge : attempt + 1 ≥ maxRetries <;>
        simp [hge, sepAux, ih]

theorem registerLoop_posts_of_noInfo (ep : Nat → AttemptResult) (port : Nat) :
    ∀ fuel attempt, countInfoReports (registerLoop ep port attempt fuel) = 0 →
      countPosts (registerLoop ep port attempt fuel) = fuel := by
  intro fuel
  induction fuel with
  | zero => intro attempt _; simp [registerLoop, countPosts]
  | succ f ih =>
    intro attempt h
    cases hres : attemptFailure (ep attempt) with
    | none =>
      exfalso
      simp [registerLoop, hres, countInfoReports, List.countP_cons] at h
    | some m =>
      simp only [registerLoop, hres] at h ⊢
      by_cases hge : attempt + 1 ≥ maxRetries <;>
        simp [hge, countInfoReports, countPosts, List.countP_cons] at h ⊢ <;>
        exact (by
          simpa [countPosts] using
            ih (attempt + 1) (List.countP_eq_zero.mpr (by simpa using h)))

theorem registerLoop_post_payload (ep : Nat → AttemptResult) (port : Nat) :
    ∀ fuel attempt, ∀ e ∈ registerLoop ep port attempt fuel,
      ∀ n p, e = RegEvent.post n p → p = deploymentPayload port := by
  intro fuel
  induction fuel with
  | zero =>
    intro attempt e he
    simp [registerLoop] at he
  | succ f ih =>
    intro attempt e he n p hep
    simp only [registerLoop] at he
    rcases List.mem_cons.mp he with h1 | h2
    · rw [hep] at h1
      exact (RegEvent.post.inj h1).2
    · cases hres : attemptFailure (ep attempt) with
      | none =>
        rw [hres] at h2
        simp at h2
        rw [hep] at h2
        exact absurd h2 (by simp)
      | some m =>
        rw [hres] at h2
        simp only [List.mem_cons, List.mem_append] at h2
        rcases h2 with h3 | h3 | h3
        · rw [hep] at h3; exact absurd h3 (by simp)
        · rw [hep] at h3; exact absurd h3 (by simp)
        · rcases h3 with h4 | h4
          · by_cases hge : attempt + 1 ≥ maxRetries
            · simp [hge] at h4
              rw [hep] at h4
              exact absurd h4 (by simp)
            · simp [hge] at h4
          · exact ih (attempt + 1) e h4 n p hep

/-! ## Claim theorems -/

/-- C2 counterexample: the claim says the merge applies ambient first,
then the fixed defaults, then the overlay, so a fixed default should beat
the ambient value. In the source
(`RestateServerRunner.ts` line 66) the spread order is fixed default,
then `process.env`, then the overlay, so the ambient value beats the fixed
default: with ambient `RESTATE_LOG_DISABLE_ANSI_CODES = "false"` and an
empty overlay, the spawned process sees `"false"`, while the claim's merge
yields `"true"`. -/
theorem spawnEnv_ambient_beats_default :
    spawnEnv ambientWithAnsi emptyEnv "RESTATE_LOG_DISABLE_ANSI_CODES" = some "false" ∧
    specMergedEnv ambientWithAnsi fixedDefaultEnv emptyEnv "RESTATE_LOG_DISABLE_ANSI_CODES" =
      some "true" ∧
    spawnEnv ambientWithAnsi emptyEnv "RESTATE_LOG_DISABLE_ANSI_CODES" ≠
      specMergedEnv ambientWithAnsi fixedDefaultEnv emptyEnv "RESTATE_LOG_DISABLE_ANSI_CODES" := by
  refine ⟨by decide, by decide, by decide⟩

/-- C2 (amended): the environment given to the spawned server binary maps
each name to the overlay's value if the overlay defines it, otherwise to
the ambient value if defined, otherwise to the fixed default: the merge
applies the fixed defaults first, then the ambient environment, then the
overlay, with the overlay winning on every conflict and ambient winning
over the fixed defaults. -/
theorem spawnEnv_precedence (ambient overlay : Env) (k : String) :
    (∀ v, overlay k = some v → spawnEnv ambient overlay k = some v) ∧
    (overlay k = none → ∀ v, ambient k = some v → spawnEnv ambient overlay k = some v) ∧
    (overlay k = none → ambient k = none → spawnEnv ambient overlay k = fixedDefaultEnv k) := by
  refine ⟨fun v hv => ?_, fun ho v hv => ?_, fun ho ha => ?_⟩
  · simp [spawnEnv, spreadMerge, hv]
  · simp [spawnEnv, spreadMerge, ho, hv]
  · simp [spawnEnv, spreadMerge, ho, ha]

/-- C2 witness: the spec's own example instance — overlay `B = "9"` wins,
ambient `A = "1"` survives, overlay `C = "3"` appears. -/
theorem spawnEnv_precedence_witness :
    spawnEnv exAmbient exOverlay "B" = some "9" ∧
    spawnEnv exAmbient exOverlay "A" = some "1" ∧
    spawnEnv exAmbient exOverlay "C" = some "3" :=
  ⟨(spawnEnv_precedence exAmbient exOverlay "B").1 "9" (by decide),
    (spawnEnv_precedence exAmbient exOverlay "A").2.1 (by decide) "1" (by decide),
    (spawnEnv_precedence exAmbient exOverlay "C").1 "3" (by decide)⟩

/-- C9: the detector triggers iff the observed chunk contains at least one
of the four fixed literal markers as a case-sensitive substring, and the
OR-combined result is independent of the order of the marker set. -/
theorem detect_markers_characterization (s : String) :
    (detectSdkStarted s = true ↔ ∃ m ∈ sdkStartedMessages, m.toList <:+: s.toList) ∧
    (∀ l : List String, l.Perm sdkStartedMessages → detectWith l s = detectSdkStarted s) := by
  constructor
  · rw [detectSdkStarted_eq_detectWith]
    simp only [detectWith, List.any_eq_true, strIncludes, listIncludes_iff_infix]
  · intro l hl
    rw [detectSdkStarted_eq_detectWith, Bool.eq_iff_iff]
    simp only [detectWith, List.any_eq_true]
    exact ⟨fun ⟨m, hm, hsm⟩ => ⟨m, hl.mem_iff.mp hm, hsm⟩,
      fun ⟨m, hm, hsm⟩ => ⟨m, hl.mem_iff.mpr hm, hsm⟩⟩

/-- C9 witness: the spec's positive example matches (as substring, not
equality) for any permutation of the marker set, and the negative example
does not trigger the detector. -/
theorem detect_markers_characterization_witness :
    detectWith [SDK_STARTED_MESSAGE_4, SDK_STARTED_MESSAGE_3, SDK_STARTED_MESSAGE_2,
        SDK_STARTED_MESSAGE_1] "...Restate SDK started listening on 9080 (pid 123)" =
      detectSdkStarted "...Restate SDK started listening on 9080 (pid 123)" ∧
    detectSdkStarted "...Restate SDK started listening on 9080 (pid 123)" = true ∧
    detectSdkStarted "listening on 9081" = false :=
  ⟨(detect_markers_characterization
      "...Restate SDK started listening on 9080 (pid 123)").2
      [SDK_STARTED_MESSAGE_4, SDK_STARTED_MESSAGE_3, SDK_STARTED_MESSAGE_2,
        SDK_STARTED_MESSAGE_1] (by decide),
    by decide, by decide⟩

/-- C10: registration triggered by activity detection calls the worker
with no explicit port, so the default service port 9070 applies; every
POSTed payload declares `uri = "http://localhost:9070"` — the same
host-and-port as the administrative endpoint itself, not the SDK listening
port 9080 named in the activity markers. -/
theorem registration_uses_admin_port (ep : Nat → AttemptResult) :
    (∀ e ∈ registerRestateServiceDeployment ep, ∀ n p,
        e = RegEvent.post n p → p.uri = "http://localhost:9070") ∧
    (deploymentPayload defaultServicePort).uri = "http://localhost:9070" ∧
    deploymentsUrl = (deploymentPayload defaultServicePort).uri ++ "/deployments" ∧
    (deploymentPayload defaultServicePort).uri ≠ "http://localhost:9080" := by
  refine ⟨?_, by decide, by decide, by decide⟩
  intro e he n p hep
  have hp := registerLoop_post_payload ep defaultServicePort maxRetries 0 e he n p hep
  rw [hp]
  decide

/-- C10 witness: the first POST of a concrete run carries the
admin-port URI. -/
theorem registration_uses_admin_port_witness :
    (deploymentPayload defaultServicePort).uri = "http://localhost:9070" :=
  (registration_uses_admin_port alwaysFailEndpoint).1
    (RegEvent.post 0 (deploymentPayload defaultServicePort)) (by decide) 0
    (deploymentPayload defaultServicePort) rfl

/-- C3 counterexample: the claim says the loop "stops immediately at the
first 2xx response". In the source, `await response.json()` runs inside
the `try` after the `ok` check, so a 2xx response whose body does not
parse as JSON is caught as a failed attempt and retried: against an
endpoint whose first response is 2xx with an unparseable body (then fully
succeeds), the first 2xx arrives on attempt 1, yet two POSTs are issued,
not one. -/
theorem register_not_stopped_by_bare_2xx :
    respOk (badJsonThenOkEndpoint 0) = true ∧
    countPosts (registerDeployment badJsonThenOkEndpoint defaultServicePort) = 2 ∧
    countPosts (registerDeployment badJsonThenOkEndpoint defaultServicePort) ≠ 1 := by
  refine ⟨by decide, by decide, by decide⟩

/-- C3 (amended): one register() call performs at most 10 sequential POST
attempts and stops immediately at the first fully successful attempt — a
2xx response whose body parses as JSON — with a success report naming the
port (a 2xx response with an unparseable body counts as a failed attempt
and is retried). For an endpoint that first fully succeeds on attempt
k ≤ 10, exactly k POSTs are issued, consecutive attempts separated by a
400 ms delay. -/
theorem register_stops_at_first_full_success (ep : Nat → AttemptResult) (port : Nat)
    (errs : Nat → String) (k : Nat) (hk1 : 1 ≤ k) (hk : k ≤ maxRetries)
    (hfail : ∀ i, i < k - 1 → attemptFailure (ep i) = some (errs i))
    (hsucc : attemptFailure (ep (k - 1)) = none) :
    countPosts (registerDeployment ep port) = k ∧
    (registerDeployment ep port).getLast? = some (RegEvent.infoReport (successMsg port)) ∧
    countInfoReports (registerDeployment ep port) = 1 ∧
    errorReports (registerDeployment ep port) = [] ∧
    postsSeparated (registerDeployment ep port) = true := by
  have hj : k - 1 < maxRetries := by rw [maxRetries_eq] at hk ⊢; omega
  obtain ⟨hp, hi, he, hl⟩ :=
    registerLoop_firstSuccess ep port errs (k - 1) hj hfail hsucc maxRetries 0 (by omega)
      (by omega)
  refine ⟨?_, hl, hi, he, registerLoop_sep ep port maxRetries 0⟩
  rw [registerDeployment] at *
  omega

/-- C3 witness: an endpoint failing twice and fully succeeding on attempt
3 yields exactly 3 POSTs, separated by the 400 ms delay, ending in the
success report that names the port. -/
theorem register_stops_at_first_full_success_witness :
    countPosts (registerDeployment failTwiceEndpoint defaultServicePort) = 3 ∧
    (registerDeployment failTwiceEndpoint defaultServicePort).getLast? =
      some (RegEvent.infoReport (successMsg defaultServicePort)) ∧
    countInfoReports (registerDeployment failTwiceEndpoint defaultServicePort) = 1 ∧
    errorReports (registerDeployment failTwiceEndpoint defaultServicePort) = [] ∧
    postsSeparated (registerDeployment failTwiceEndpoint defaultServicePort) = true :=
  register_stops_at_first_full_success failTwiceEndpoint defaultServicePort
    (fun _ => "Failed to register deployment: Service Unavailable") 3 (by decide) (by decide)
    (by decide) (by decide)

/-- C4: when every attempt fails, register() makes exactly 10 POSTs and
produces exactly one user-visible failure report, carrying the last
attempt's error and the total attempt count (`exhaustMsg` embeds
`maxRetries` and the final error); no success report is shown. No
exception escapes to the caller: the `catch` swallows every per-attempt
throw, which the embedding reflects by returning a plain event list. -/
theorem register_exhaustion (ep : Nat → AttemptResult) (port : Nat) (errs : Nat → String)
    (h : ∀ i, i < maxRetries → attemptFailure (ep i) = some (errs i)) :
    countPosts (registerDeployment ep port) = maxRetries ∧
    errorReports (registerDeployment ep port) =
      [RegEvent.errorReport (exhaustMsg port (errs (maxRetries - 1)))] ∧
    countInfoReports (registerDeployment ep port) = 0 := by
  obtain ⟨hp, he, hi⟩ := registerLoop_allFail ep port errs h maxRetries 0 (by omega)
  exact ⟨hp, by simpa [maxRetries_eq] using he, hi⟩

/-- C4 witness: a transport-level always-failing endpoint. -/
theorem register_exhaustion_witness :
    countPosts (registerDeployment alwaysFailEndpoint defaultServicePort) = maxRetries ∧
    errorReports (registerDeployment alwaysFailEndpoint defaultServicePort) =
      [RegEvent.errorReport (exhaustMsg defaultServicePort "fetch failed")] ∧
    countInfoReports (registerDeployment alwaysFailEndpoint defaultServicePort) = 0 :=
  register_exhaustion alwaysFailEndpoint defaultServicePort (fun _ => "fetch failed")
    (fun _ _ => rfl)

/-- C5 counterexample: the claim says the retry loop accepts a cancellation
token checked at the top of each iteration. The source's
`_registerRestateServiceDeployment` takes no cancellation input at all:
against an always-failing endpoint with a token that has already fired,
the spec's described cancellable loop performs 0 POSTs while the code's
loop performs all 10. -/
theorem register_ignores_cancellation :
    countPosts (registerLoopCancellable alwaysFailEndpoint (fun _ => true)
        defaultServicePort 0 maxRetries) = 0 ∧
    countPosts (registerDeployment alwaysFailEndpoint defaultServicePort) = 10 ∧
    countPosts (registerDeployment alwaysFailEndpoint defaultServicePort) ≠
      countPosts (registerLoopCancellable alwaysFailEndpoint (fun _ => true)
        defaultServicePort 0 maxRetries) := by
  refine ⟨by decide, by decide, by decide⟩

/-- C5 (amended): the registration retry loop accepts no cancellation
token and never exits early other than by success: any run that ends
without a success report has made exactly 10 POST attempts. -/
theorem register_no_early_exit (ep : Nat → AttemptResult) (port : Nat)
    (h : countInfoReports (registerDeployment ep port) = 0) :
    countPosts (registerDeployment ep port) = maxRetries :=
  registerLoop_posts_of_noInfo ep port maxRetries 0 h

/-- C5 witness: the always-failing endpoint shows no success report and
exactly 10 POSTs. -/
theorem register_no_early_exit_witness :
    countInfoReports (registerDeployment alwaysFailEndpoint defaultServicePort) = 0 ∧
    countPosts (registerDeployment alwaysFailEndpoint defaultServicePort) = maxRetries :=
  ⟨by decide, register_no_early_exit alwaysFailEndpoint defaultServicePort (by decide)⟩

/-- C6 counterexample: the claim says each monitored source — including a
debug session's output stream — stops being monitored after one acted-on
match. The debug-adapter tracker's `onDidSendMessage` has no such
mechanism: a session emitting two marker-bearing output events triggers
the handler twice, violating "at most one per debug session output
stream". -/
theorem debug_monitoring_never_stops :
    debugTriggers [matchingDebugMessage, matchingDebugMessage] = 2 ∧
    ¬(debugTriggers [matchingDebugMessage, matchingDebugMessage] ≤ 1) :=
  ⟨by decide, by decide⟩

/-- C6 (amended): the terminal source stops monitoring a shell execution
after the first acted-on match (`break`): at most one trigger per shell
execution, and once a matching chunk is seen all later chunks are ignored.
The debug-console tracker, by contrast, keeps monitoring: every further
matching output event triggers the handler again. The two sources are
modelled by independent functions, each unaffected by the other's
observations. -/
theorem monitoring_per_source (chunks rest : List String) (d : String)
    (hd : detectSdkStarted d = true)
    (ms : List DebugMessage) (m : DebugMessage) (hm : debugMessageTriggers m = true) :
    terminalTriggers chunks ≤ 1 ∧
    terminalTriggers (d :: rest) = 1 ∧
    debugTriggers (ms ++ [m]) = debugTriggers ms + 1 := by
  refine ⟨?_, ?_, ?_⟩
  · induction chunks with
    | nil => simp [terminalTriggers]
    | cons c cs ih =>
      by_cases hc : detectSdkStarted c <;> simp [terminalTriggers, hc, ih]
  · simp [terminalTriggers, hd]
  · simp [debugTriggers, List.filter_append, hm]

/-- C6 witness: a shell stream with two matching chunks triggers once; a
debug session's second matching event still triggers. -/
theorem monitoring_per_source_witness :
    terminalTriggers ["Restate SDK started listening on 9080",
        "Restate SDK started listening on 9080"] ≤ 1 ∧
    terminalTriggers ("Restate SDK started listening on 9080" ::
        ["Restate SDK started listening on 9080"]) = 1 ∧
    debugTriggers ([matchingDebugMessage] ++ [matchingDebugMessage]) =
      debugTriggers [matchingDebugMessage] + 1 :=
  monitoring_per_source
    ["Restate SDK started listening on 9080", "Restate SDK started listening on 9080"]
    ["Restate SDK started listening on 9080"] "Restate SDK started listening on 9080"
    (by decide) [matchingDebugMessage] matchingDebugMessage (by decide)

/-- C7: for every stop() run on an owned process (not mid-start), the
forceful kill is sent iff no close or error event arrives within 10
seconds of the graceful signal; a close arriving before the timer fires
means the timer is cancelled, escalation never happens, and stop()
resolves successfully having sent only SIGTERM. -/
theorem stop_escalates_iff_timeout (st : RunnerState) (h : Nat) (fe : ProcFirstEvent)
    (killThrows : Bool) (killErr : String)
    (hst : st.starting = false) (hp : st.serverProcess = some h) :
    (StopSignal.sigkill ∈ (stopServer st fe killThrows killErr).2.1 ↔
      eventWithinTimeout fe = false) ∧
    (∀ t, fe = ProcFirstEvent.closeAt t → t < 10000 →
      (stopServer st fe killThrows killErr).1 = StopOutcome.resolved ∧
      (stopServer st fe killThrows killErr).2.1 = [StopSignal.sigterm]) := by
  obtain ⟨sb, sp⟩ := st
  simp only at hst hp
  subst hst
  subst hp
  constructor
  · cases fe with
    | closeAt t =>
      by_cases hw : t < 10000 <;> by_cases hk : killThrows <;>
        simp [stopServer, eventWithinTimeout, hw, hk]
    | errorAt t msg =>
      by_cases hw : t < 10000 <;> by_cases hk : killThrows <;>
        simp [stopServer, eventWithinTimeout, hw, hk]
    | never =>
      by_cases hk : killThrows <;> simp [stopServer, eventWithinTimeout, hk]
  · rintro t rfl hw
    simp [stopServer, eventWithinTimeout, hw]

/-- C7 witness: a process closing 500 ms after SIGTERM — stop resolves,
only the graceful signal was sent. -/
theorem stop_escalates_iff_timeout_witness :
    (stopServer ⟨false, some 1⟩ (ProcFirstEvent.closeAt 500) false "").1 =
      StopOutcome.resolved ∧
    (stopServer ⟨false, some 1⟩ (ProcFirstEvent.closeAt 500) false "").2.1 =
      [StopSignal.sigterm] :=
  (stop_escalates_iff_timeout ⟨false, some 1⟩ 1 (ProcFirstEvent.closeAt 500) false ""
    rfl rfl).2 500 rfl (by decide)

/-- C8: a start request arriving while the runner is `Starting`
(`starting = true`) or `Running` (a process handle is owned) surfaces the
corresponding warning, returns fulfilled, spawns nothing, and leaves the
state — in particular the owned handle — unchanged; the handle being an
`Option` field embeds "at most one child-process handle at any instant". -/
theorem start_rejected_when_busy (st : RunnerState) (installed : Bool) (installExit : Int)
    (cancelRequested : Bool) (pid : Nat)
    (hbusy : st.starting = true ∨ st.serverProcess.isSome = true) :
    (startServer st installed installExit cancelRequested pid).state = st ∧
    (startServer st installed installExit cancelRequested pid).ok = true ∧
    countSpawnEvents (startServer st installed installExit cancelRequested pid).events = 0 ∧
    (startServer st installed installExit cancelRequested pid).events =
      (if st.starting then [StartEvent.warnAlreadyStarting]
        else [StartEvent.warnAlreadyRunning]) := by
  rcases hbusy with hs | hp
  · simp [startServer, hs, countSpawnEvents]
  · by_cases hs : st.starting
    · simp [startServer, hs, countSpawnEvents]
    · simp [startServer, hs, hp, countSpawnEvents]

/-- C8 witness: a start request against a runner already owning process 7
warns, spawns nothing, and leaves the handle as it was. -/
theorem start_rejected_when_busy_witness :
    (startServer ⟨false, some 7⟩ true 0 false 99).state = (⟨false, some 7⟩ : RunnerState) ∧
    (startServer ⟨false, some 7⟩ true 0 false 99).ok = true ∧
    countSpawnEvents (startServer ⟨false, some 7⟩ true 0 false 99).events = 0 ∧
    (startServer ⟨false, some 7⟩ true 0 false 99).events = [StartEvent.warnAlreadyRunning] := by
  have hw := start_rejected_when_busy ⟨false, some 7⟩ true 0 false 99 (Or.inr rfl)
  simpa using hw

/-- The register-guard invariant holds in the initial two-matches
configuration. -/
theorem regGuardInv_init : regGuardInv bothMatchedConf = true := by decide

set_option maxRecDepth 4000 in
/-- The register-guard invariant is preserved by every atomic step of
either task (checked over the whole finite configuration space). -/
theorem regGuardInv_step : ∀ (i : Bool) (c : AutoConf),
    regGuardInv c = true → regGuardInv (autoStep i c).1 = true := by decide

set_option maxRecDepth 4000 in
/-- The register-guard invariant rules out both tasks being inside the
register body at once. -/
theorem regGuardInv_not_both :
    ∀ c : AutoConf, regGuardInv c = true → bothInsideRegister c = false := by decide

/-- The register-guard invariant is preserved by every schedule. -/
theorem regGuardInv_runSched : ∀ (sched : List Bool) (c : AutoConf),
    regGuardInv c = true → regGuardInv (runSched sched c) = true := by
  intro sched
  induction sched with
  | nil => intro c hc; exact hc
  | cons i rest ih =>
    intro c hc
    exact ih _ (regGuardInv_step i c hc)

/-- C1 counterexample: the claim says a process-wide "auto-starting" guard
set on the first match makes the second match skip, so exactly one
ensureStarted-then-register sequence runs. The source sets no guard
around `autoStartRestateServer` — the only guard,
`isRegisteringDeployment`, is set at entry to
`registerRestateServiceDeployment`. In the interleaving where each
handler's start block runs while the other is suspended in its install
await, both handlers execute the ensureStarted sequence (two runner
creations, two spawns); only the registration half is deduplicated. -/
theorem two_matches_two_ensureStarted :
    countEnsureStartedRuns (traceSched interleavedSched bothMatchedConf) = 2 ∧
    countEnsureStartedRuns (traceSched interleavedSched bothMatchedConf) ≠ 1 ∧
    countRegisterEnters (traceSched interleavedSched bothMatchedConf) = 1 :=
  ⟨by decide, by decide, by decide⟩

/-- C1 (amended): the only process-wide guard is
`isRegisteringDeployment`, set at entry to
`registerRestateServiceDeployment` and cleared in its `finally`: in every
interleaving of two near-simultaneous matches, at most one task is inside
the register body at any instant (a concurrent second call skips), while
nothing prevents both tasks from executing the ensureStarted sequence.
Every reachable instant is the end of some schedule prefix, so quantifying
over all schedules from the two-matches configuration covers all reachable
configurations. -/
theorem register_guard_mutual_exclusion (sched : List Bool) :
    bothInsideRegister (runSched sched bothMatchedConf) = false := by
  have hinv := regGuardInv_runSched sched bothMatchedConf regGuardInv_init
  exact regGuardInv_not_both _ hinv

end Restate
